import Mathlib

/-!
Shallow embedding of `async-stream-rs` (src/lib.rs): an adapter that turns a
push-style async producer into a pull-based stream, under both the futures 0.3
protocol (`poll_next`, with a waker context) and the futures 0.1 protocol
(`poll`, no context).

Modelling choices, read against the source:

* The shared rendezvous slot `Arc<Cell<Option<I>>>` is modelled as a plain
  `Option I` value threaded through the state: within one poll cycle accesses
  strictly alternate (one producer write, one adapter drain), so the cell's
  contents at each step are a pure function of the previous state.
* The driving future (the producer's async closure, boxed and type-erased in
  the source) is modelled as a `Producer`: a list of suspension steps followed
  by a final `Except E Unit` result.  Each `ProdStep.emit i` step is one
  `y.send(i).await`: `Sender.send` overwrites the slot and returns a fresh
  `SenderFuture`, whose first poll is `Pending`, so the driving future's poll
  returns `Pending` with the slot freshly written.  Each `ProdStep.pend` step
  is the producer awaiting some unrelated pending sub-future: the driving
  future's poll returns `Pending` and the slot is untouched.  Once the steps
  are exhausted, polling the driving future returns `Ready` with the final
  result (as a resolved Rust future would keep reporting in this model; the
  adapter is not supposed to reach a second such poll).
* The waker context `Context<'_>` carries no data relevant to the state
  transitions (the source's `SenderFuture::poll` ignores it, and the producer
  model does not depend on it); it is modelled as an opaque token and only
  appears where the claims mention it (`SenderFuture.poll`).
* `unwrap` on `self.fut` (which would panic on `None`) is modelled by making
  the two poll functions return `Option`: `none` is the panic.
-/

/-- `futures::task::Poll` (futures 0.3): `Ready(a)` or `Pending`. -/
inductive Poll03 (α : Type) : Type
  | ready (a : α)
  | pending
deriving DecidableEq, Repr

/-- `futures01::Async` (futures 0.1): `Ready(a)` or `NotReady`. -/
inductive Async01 (α : Type) : Type
  | ready (a : α)
  | notReady
deriving DecidableEq, Repr

/-- The waker context `futures::task::Context<'_>`.  No field of it is ever
read by the code under consideration, so it is a bare token type. -/
structure Context : Type where
  token : Nat
deriving DecidableEq, Repr

/-- `SenderFuture` (src/lib.rs lines 56-58): future returned by
`Sender::send`, holding the single flag `is_ready`. -/
structure SenderFuture : Type where
  is_ready : Bool
deriving DecidableEq, Repr

/-- `SenderFuture::new` (src/lib.rs lines 61-63): starts not ready. -/
def SenderFuture.new : SenderFuture :=
  { is_ready := false }

/-- `SenderFuture::poll` (src/lib.rs lines 69-76).  The state is passed and
returned explicitly (`mut self`): if `is_ready` then `Ready(())`, else set
`is_ready` and return `Pending`.  The context is ignored, as in the source. -/
def SenderFuture.poll (s : SenderFuture) (_cx : Context) :
    SenderFuture × Poll03 Unit :=
  if s.is_ready then
    (s, Poll03.ready ())
  else
    ({ is_ready := true }, Poll03.pending)

/-- `Sender::send` (src/lib.rs lines 97-103).  The `Sender` is a handle to the
shared cell, so its state is the cell's contents `Option I`; `send` performs
`self.0.set(Some(item.into()))` — unconditionally overwriting the slot — and
returns `SenderFuture::new()`.  (The `T: Into<I>` conversion is applied before
entry: `item` is already the converted value.)  The function is total: there
is no error outcome. -/
def Sender.send {I : Type} (_slot : Option I) (item : I) :
    Option I × SenderFuture :=
  (some item, SenderFuture.new)

/-- One suspension step of the producer's async closure: either an emit
(`y.send(i).await`, one value handed off then one pending) or an unrelated
pending suspension (the producer awaits something else without emitting). -/
inductive ProdStep (I : Type) : Type
  | emit (i : I)
  | pend
deriving DecidableEq, Repr

/-- The driving future: the producer's async closure instantiated, boxed and
type-erased in the source to `Pin<Box<dyn Future<Output = Result<(), Error>>>>`.
Modelled as the remaining suspension steps and the final result. -/
structure Producer (I E : Type) : Type where
  steps : List (ProdStep I)
  result : Except E Unit
deriving Repr

/-- One poll of the driving future, given the current contents of the shared
slot.  Returns the advanced future, the slot contents after the poll, and the
poll outcome.  An `emit i` step runs `Sender.send` (overwriting the slot) and
suspends on the fresh `SenderFuture`, whose first poll is pending; a `pend`
step suspends without touching the slot; with no steps left the future is
complete and reports its final result. -/
def Producer.poll {I E : Type} (p : Producer I E) (slot : Option I) :
    Producer I E × Option I × Poll03 (Except E Unit) :=
  match p.steps with
  | [] => (p, slot, Poll03.ready p.result)
  | ProdStep.emit i :: rest =>
      let sent := Sender.send slot i
      (⟨rest, p.result⟩, sent.1, Poll03.pending)
  | ProdStep.pend :: rest =>
      (⟨rest, p.result⟩, slot, Poll03.pending)

/-- `AsyncStream<Item, Error>` (src/lib.rs lines 118-121): the `item` field is
the `Sender` handle, i.e. the shared cell, modelled by its contents; `fut` is
the `Option` holding the boxed driving future. -/
structure AsyncStream (I E : Type) : Type where
  item : Option I
  fut : Option (Producer I E)
deriving Repr

/-- `AsyncStream::new` (src/lib.rs lines 132-143): the sender (and the cell)
starts empty (`Sender::new(None)`), and the future produced by the closure is
stored as `Some`.  The closure application `f(sender)` is the given
`Producer`. -/
def AsyncStream.new {I E : Type} (p : Producer I E) : AsyncStream I E :=
  { item := none, fut := some p }

/-- `<AsyncStream as Stream03>::poll_next` (src/lib.rs lines 187-208).
`none` models the panic of `self.fut.as_mut().unwrap()`.  Otherwise the
driving future is polled once; `Ready(Ok(_))` ends the stream, `Ready(Err(e))`
yields the terminal error item, and on `Pending` the slot is drained with
`self.item.0.replace(None)`: an occupied slot yields its item, an empty slot
propagates `Pending`. -/
def AsyncStream.poll_next {I E : Type} (s : AsyncStream I E) :
    Option (AsyncStream I E × Poll03 (Option (Except E I))) :=
  match s.fut with
  | none => none
  | some p =>
      match Producer.poll p s.item with
      | (p', slot', Poll03.ready (Except.ok _)) =>
          some (⟨slot', some p'⟩, Poll03.ready none)
      | (p', slot', Poll03.ready (Except.error e)) =>
          some (⟨slot', some p'⟩, Poll03.ready (some (Except.error e)))
      | (p', slot', Poll03.pending) =>
          match slot' with
          | none => some (⟨none, some p'⟩, Poll03.pending)
          | some x => some (⟨none, some p'⟩, Poll03.ready (some (Except.ok x)))

/-- `<AsyncStream as Stream01>::poll` (src/lib.rs lines 158-179, the
feature-gated compat module).  The future is moved out of the `Option`
(`unwrap`, modelled by `none` = panic), polled through the 0.3-to-0.1 `Compat`
shim (`Ready(Ok(_))` becomes `Ok(Ready(_))`, `Ready(Err(e))` becomes `Err(e)`,
`Pending` becomes `Ok(NotReady)`), and put back before matching.  Success maps
to `Ok(Ready(None))`, failure to `Err(e)`, and `NotReady` drains the slot with
the same `replace(None)` logic as the 0.3 poll. -/
def AsyncStream.poll {I E : Type} (s : AsyncStream I E) :
    Option (AsyncStream I E × Except E (Async01 (Option I))) :=
  match s.fut with
  | none => none
  | some p =>
      match Producer.poll p s.item with
      | (p', slot', Poll03.ready (Except.ok _)) =>
          some (⟨slot', some p'⟩, Except.ok (Async01.ready none))
      | (p', slot', Poll03.ready (Except.error e)) =>
          some (⟨slot', some p'⟩, Except.error e)
      | (p', slot', Poll03.pending) =>
          match slot' with
          | none => some (⟨none, some p'⟩, Except.ok Async01.notReady)
          | some x => some (⟨none, some p'⟩, Except.ok (Async01.ready (some x)))

/-- The sequence of results of the first `n` consumer polls under the 0.3
protocol, `none` if any of them panics. -/
def AsyncStream.outputs {I E : Type} :
    AsyncStream I E → Nat → Option (List (Poll03 (Option (Except E I))))
  | _, 0 => some []
  | s, n + 1 =>
      match s.poll_next with
      | none => none
      | some (s', r) =>
          match AsyncStream.outputs s' n with
          | none => none
          | some rs => some (r :: rs)

/-- Claim C6: for every item and every prior slot state, `send(item)` stores
the item in the shared slot, overwriting any previous unread value, and
returns a fresh (not yet ready) `SenderFuture`; the function is total, so
there is no error condition, also when sending before the previous item was
drained. -/
theorem send_overwrites_slot {I : Type} (slot : Option I) (item : I) :
    Sender.send slot item = (some item, SenderFuture.new)
      ∧ (Sender.send slot item).2.is_ready = false := by
  constructor <;> rfl

/-- Claim C7: a fresh `SenderFuture` is pending exactly once, for any contexts:
its first poll returns `Pending`, its second poll returns `Ready` and leaves
the state unchanged, so every later poll also returns `Ready`. -/
theorem senderFuture_pending_once (cx cx' : Context) :
    (SenderFuture.new.poll cx).2 = Poll03.pending
      ∧ ((SenderFuture.new.poll cx).1.poll cx').2 = Poll03.ready ()
      ∧ ((SenderFuture.new.poll cx).1.poll cx').1 = (SenderFuture.new.poll cx).1 := by
  refine ⟨rfl, rfl, rfl⟩

/-- Unfolding lemma: one consumer poll that does not panic prepends its result
to the remaining run. -/
theorem AsyncStream.outputs_succ {I E : Type} (s s' : AsyncStream I E)
    (r : Poll03 (Option (Except E I))) (n : Nat)
    (h : s.poll_next = some (s', r)) :
    s.outputs (n + 1)
      = match s'.outputs n with
        | none => none
        | some rs => some (r :: rs) := by
  rw [AsyncStream.outputs, h]

/-- Claim C1: a producer that emits the items of `l` one per send (each send
fully awaited) and then returns success, when polled to exhaustion under the
0.3 protocol, yields exactly the items of `l`, in order, each as `Ready (Some
(Ok i))`, followed by end-of-sequence `Ready None`: nothing is reordered,
duplicated, or dropped. -/
theorem poll_to_exhaustion_yields_items_in_order {I E : Type} (l : List I) :
    AsyncStream.outputs
        (AsyncStream.new (⟨l.map ProdStep.emit, Except.ok ()⟩ : Producer I E))
        (l.length + 1)
      = some (l.map (fun i => Poll03.ready (some (Except.ok i)))
          ++ [Poll03.ready none]) := by
  induction l with
  | nil => rfl
  | cons i tl ih =>
      rw [List.length_cons,
        AsyncStream.outputs_succ
          (AsyncStream.new ⟨(i :: tl).map ProdStep.emit, Except.ok ()⟩)
          (AsyncStream.new ⟨tl.map ProdStep.emit, Except.ok ()⟩)
          (Poll03.ready (some (Except.ok i))) (tl.length + 1) rfl,
        ih]
      rfl

/-- Claim C2: whenever the driving future has a step left its poll returns
`Pending` (first conjunct); on such a poll the adapter drains the slot: an
unrelated suspension with an occupied slot yields that item and the stream
stays active, an unrelated suspension with an empty slot propagates `Pending`
and stays active, and an emit step yields the emitted item. -/
theorem pending_poll_drains_slot {I E : Type} (st : ProdStep I)
    (rest : List (ProdStep I)) (r : Except E Unit) (slot : Option I) (i x : I) :
    (Producer.poll ⟨st :: rest, r⟩ slot).2.2 = Poll03.pending
    ∧ (AsyncStream.mk (some x) (some ⟨ProdStep.pend :: rest, r⟩)).poll_next
        = some (⟨none, some ⟨rest, r⟩⟩, Poll03.ready (some (Except.ok x)))
    ∧ (AsyncStream.mk none (some ⟨ProdStep.pend :: rest, r⟩)).poll_next
        = some (⟨none, some ⟨rest, r⟩⟩, Poll03.pending)
    ∧ (AsyncStream.mk slot (some ⟨ProdStep.emit i :: rest, r⟩)).poll_next
        = some (⟨none, some ⟨rest, r⟩⟩, Poll03.ready (some (Except.ok i))) := by
  refine ⟨?_, rfl, rfl, rfl⟩
  cases st <;> rfl

/-- Claim C3: when the driving future completes with success, the same
`poll_next` call reports end-of-sequence `Ready None`, for every slot content:
completion takes precedence and a residual slot item is not reported (the
state, slot included, is left unchanged, so the item is never observable).  In
particular a producer emitting zero items yields end-of-sequence on the very
first poll of a fresh stream. -/
theorem ready_ok_reports_end_of_stream {I E : Type} (slot : Option I) :
    (AsyncStream.mk slot (some (⟨[], Except.ok ()⟩ : Producer I E))).poll_next
        = some (AsyncStream.mk slot (some ⟨[], Except.ok ()⟩), Poll03.ready none)
    ∧ (AsyncStream.new (⟨[], Except.ok ()⟩ : Producer I E)).poll_next
        = some (AsyncStream.new ⟨[], Except.ok ()⟩, Poll03.ready none) :=
  ⟨rfl, rfl⟩

/-- Claim C4: when the driving future completes with failure `e`, the same
`poll_next` call reports the failure as a terminal error item
`Ready (Some (Err e))`, for every slot content; a producer that fails without
emitting yields that failure as the only signal of its one-poll run. -/
theorem ready_err_reports_terminal_error {I E : Type} (slot : Option I) (e : E) :
    (AsyncStream.mk slot (some (⟨[], Except.error e⟩ : Producer I E))).poll_next
        = some (AsyncStream.mk slot (some ⟨[], Except.error e⟩),
            Poll03.ready (some (Except.error e)))
    ∧ AsyncStream.outputs
          (AsyncStream.new (⟨[], Except.error e⟩ : Producer I E)) 1
        = some [Poll03.ready (some (Except.error e))] :=
  ⟨rfl, rfl⟩

/-- Claim C5 counterexample: the adapter has no terminal Finished state.  For
the concrete empty successful producer, the first consumer poll returns
`Ready None` and leaves the stream state exactly as it was, with the driving
future still stored; three consecutive consumer polls all succeed, each one
polling the driving future again (the stored future's poll is invoked and
returns `Ready` once more) and silently returning the stale `Ready None` —
no checked, reported misuse occurs. -/
theorem no_finished_state_counterexample :
    (AsyncStream.new (⟨[], Except.ok ()⟩ : Producer Nat Nat)).poll_next
        = some (AsyncStream.new ⟨[], Except.ok ()⟩, Poll03.ready none)
    ∧ (AsyncStream.new (⟨[], Except.ok ()⟩ : Producer Nat Nat)).fut
        = some ⟨[], Except.ok ()⟩
    ∧ Producer.poll (⟨[], Except.ok ()⟩ : Producer Nat Nat) none
        = (⟨[], Except.ok ()⟩, none, Poll03.ready (Except.ok ()))
    ∧ AsyncStream.outputs
          (AsyncStream.new (⟨[], Except.ok ()⟩ : Producer Nat Nat)) 3
        = some [Poll03.ready none, Poll03.ready none, Poll03.ready none] :=
  ⟨rfl, rfl, rfl, rfl⟩

/-- Claim C5 amended: once the driving future has completed, the adapter does
not enter a distinguished Finished state: the future stays stored and the poll
leaves the whole stream state unchanged, so every subsequent consumer poll
polls the driving future again and returns the same completion result again
(`Ready None` on success, `Ready (Some (Err e))` on failure) instead of
surfacing a checked misuse. -/
theorem completed_future_repolled_stale {I E : Type} (slot : Option I)
    (r : Except E Unit) :
    (AsyncStream.mk slot (some (⟨[], r⟩ : Producer I E))).poll_next
      = some (AsyncStream.mk slot (some ⟨[], r⟩),
          match r with
          | Except.ok _ => Poll03.ready none
          | Except.error e => Poll03.ready (some (Except.error e))) := by
  cases r <;> rfl

/-- Claim C8: under the legacy (futures 0.1) protocol, completion with failure
`e` is propagated as the immediate terminal error `Err e` (not a stream item);
completion with success is reported as end-of-stream `Ok (Ready None)` with no
trailing item, whatever the slot holds; and a pending poll drains the slot
exactly as the 0.3 protocol does: occupied slot yields the item, empty slot
yields `NotReady`, an emit step yields the emitted item. -/
theorem legacy_poll_maps_outcomes {I E : Type} (slot : Option I) (e : E)
    (rest : List (ProdStep I)) (r : Except E Unit) (i x : I) :
    (AsyncStream.mk slot (some (⟨[], Except.error e⟩ : Producer I E))).poll
        = some (AsyncStream.mk slot (some ⟨[], Except.error e⟩), Except.error e)
    ∧ (AsyncStream.mk slot (some (⟨[], Except.ok ()⟩ : Producer I E))).poll
        = some (AsyncStream.mk slot (some ⟨[], Except.ok ()⟩),
            Except.ok (Async01.ready none))
    ∧ (AsyncStream.mk (some x) (some ⟨ProdStep.pend :: rest, r⟩)).poll
        = some (⟨none, some ⟨rest, r⟩⟩, Except.ok (Async01.ready (some x)))
    ∧ (AsyncStream.mk none (some ⟨ProdStep.pend :: rest, r⟩)).poll
        = some (⟨none, some ⟨rest, r⟩⟩, Except.ok Async01.notReady)
    ∧ (AsyncStream.mk slot (some ⟨ProdStep.emit i :: rest, r⟩)).poll
        = some (⟨none, some ⟨rest, r⟩⟩, Except.ok (Async01.ready (some i))) :=
  ⟨rfl, rfl, rfl, rfl, rfl⟩

/-- Claim C9: the `Option` holding the boxed driving future is `Some` after
construction, and both polls, run on any state where it is `Some`, do not
panic (the `unwrap` succeeds) and leave it `Some` again — the legacy poll
moves the future out and puts it back. -/
theorem fut_always_present {I E : Type} (p : Producer I E)
    (s : AsyncStream I E) (h : s.fut.isSome = true) :
    (AsyncStream.new p).fut.isSome = true
    ∧ s.poll_next.isSome = true
    ∧ s.poll.isSome = true
    ∧ (∀ s' res, s.poll_next = some (s', res) → s'.fut.isSome = true)
    ∧ (∀ s' res, s.poll = some (s', res) → s'.fut.isSome = true) := by
  rcases s with ⟨item, fut⟩
  rcases fut with _ | ⟨steps, result⟩
  · simp at h
  refine ⟨rfl, ?_, ?_, ?_, ?_⟩ <;>
    rcases steps with _ | ⟨st, rest⟩ <;>
    first
      | (rcases result with e | u
         all_goals first
           | rfl
           | (intro s' res hEq
              cases hEq
              rfl))
      | (rcases st with i | _ <;>
         rcases item with _ | x <;>
         first
           | rfl
           | (intro s' res hEq
              cases hEq
              rfl))

/-- Claim C9 witness: instantiated at a fresh stream over a one-step
producer. -/
theorem fut_always_present_witness :
    (AsyncStream.new (⟨[], Except.ok ()⟩ : Producer Nat Nat)).fut.isSome = true
    ∧ (AsyncStream.new
          (⟨[ProdStep.pend], Except.ok ()⟩ : Producer Nat Nat)).poll_next.isSome
        = true
    ∧ (AsyncStream.new
          (⟨[ProdStep.pend], Except.ok ()⟩ : Producer Nat Nat)).poll.isSome
        = true
    ∧ (∀ s' res,
        (AsyncStream.new
            (⟨[ProdStep.pend], Except.ok ()⟩ : Producer Nat Nat)).poll_next
          = some (s', res) → s'.fut.isSome = true)
    ∧ (∀ s' res,
        (AsyncStream.new
            (⟨[ProdStep.pend], Except.ok ()⟩ : Producer Nat Nat)).poll
          = some (s', res) → s'.fut.isSome = true) :=
  fut_always_present ⟨[], Except.ok ()⟩
    (AsyncStream.new ⟨[ProdStep.pend], Except.ok ()⟩) rfl

/-- Claim C10: the shared slot is empty when the stream is constructed, and
immediately after any poll (either protocol) that returns a produced item the
slot is empty again, so an item is observable at most once. -/
theorem slot_drained_after_item {I E : Type} (p : Producer I E)
    (s s' : AsyncStream I E) (x : I)
    (h : s.poll_next = some (s', Poll03.ready (some (Except.ok x)))
       ∨ s.poll = some (s', Except.ok (Async01.ready (some x)))) :
    (AsyncStream.new p).item = none ∧ s'.item = none := by
  refine ⟨rfl, ?_⟩
  rcases s with ⟨item, fut⟩
  rcases fut with _ | ⟨steps, result⟩
  · rcases h with h | h <;> cases h
  rcases steps with _ | ⟨st, rest⟩
  · rcases result with e | u <;> rcases h with h | h <;> cases h
  · rcases st with i | _ <;> rcases item with _ | y <;>
      rcases h with h | h <;> cases h <;> rfl

/-- Claim C10 witness: instantiated at a stream whose poll produces the item
5, after which the slot is empty. -/
theorem slot_drained_after_item_witness :
    (AsyncStream.new (⟨[], Except.ok ()⟩ : Producer Nat Nat)).item = none
    ∧ (AsyncStream.mk none
          (some (⟨[], Except.ok ()⟩ : Producer Nat Nat))).item = none :=
  slot_drained_after_item ⟨[], Except.ok ()⟩
    (AsyncStream.new ⟨[ProdStep.emit 5], Except.ok ()⟩)
    (AsyncStream.mk none (some ⟨[], Except.ok ()⟩)) 5 (Or.inl rfl)
